import Mathlib

/-!
# Verification of the morning.lang IR code generator

A shallow embedding of the semantic analyzer / IR code generator of the
morning.lang compiler, translated from:

* `source/codegen/arithmetic.cpp` (`ArithmeticCodegen`)
* `source/utils/cast.hpp` (`implicit_cast`)
* `source/utils/convert.hpp` (`type_to_string`)
* `source/env.h` (`Environment`)
* `source/logger.hpp` (`Logger::log`: a CRITICAL log aborts the process,
  a WARNING log continues)
* `source/morningllvm.cpp` (`get_type`, `alloc_var`, `generate_expression`, ...)

Modelling conventions:

* LLVM IR types are uniquified per context, so pointer equality of
  `llvm::Type*` coincides with structural equality of `Ty`.
  LLVM 19 pointers are opaque; the address space is kept so that distinct
  pointer types exist (`ptr addrspace(n)`), as they do in LLVM.
* `llvm::Value*` is modelled by `Val`: typed constants, instruction
  results, alloca results (which remember their allocated type, as
  `AllocaInst::getAllocatedType` does), globals and functions.
* The two IR builders (`m_IR_BUILDER`, `m_VARS_BUILDER`) become a
  `Builder` state: an instruction list tagged with basic-block ids,
  the current insertion block, and fresh counters.  `m_VARS_BUILDER`
  always inserts at the entry block, so allocas are tagged with
  `entryBlock`.
* A fatal diagnostic (`LOG_CRITICAL`) aborts the process; it is modelled
  as an `Except.error`.  Warnings are accumulated in the compiler state
  (for `get_type`, in its result).  The warning that `type_to_string`
  itself can print for unknown types is diagnostic-only and is not
  tracked.
* Recursion over expressions and over type-tag strings is fuelled; fuel
  exhaustion is a distinct error that no theorem treats as a result of
  the program.
* C++ `size_t` arithmetic wraps modulo `2^64`; `usub64` models the
  unsigned subtraction used (wrapping) inside `get_type`.
* AST list forms not needed by any claim (loops, conditionals, memory
  intrinsics, calls, ...) are mapped to a distinct `Err.unmodeled`
  value; no theorem evaluates the generator on them.
-/

/-- LLVM IR types, structurally (types are uniquified in LLVM, so
`llvm::Type*` equality is structural equality). -/
inductive Ty
  | int (bits : Nat)
  | double
  | ptr (addrspace : Nat)
  | void
  | array (elem : Ty) (size : Nat)
  deriving DecidableEq, Repr

/-- `Type::isIntegerTy`. -/
def Ty.isInteger : Ty → Bool
  | .int _ => true
  | _ => false

/-- `Type::isDoubleTy`. -/
def Ty.isDouble : Ty → Bool
  | .double => true
  | _ => false

/-- `Type::isPointerTy`. -/
def Ty.isPointer : Ty → Bool
  | .ptr _ => true
  | _ => false

/-- `Type::isArrayTy`. -/
def Ty.isArray : Ty → Bool
  | .array _ _ => true
  | _ => false

/-- `Type::getIntegerBitWidth` (0 for non-integers; only queried on integers
in the source). -/
def Ty.intBits : Ty → Nat
  | .int b => b
  | _ => 0

/-- The textual form `llvm::Type::print` produces for these types. -/
def tyPrint : Ty → String
  | .int n => "i" ++ toString n
  | .double => "double"
  | .ptr 0 => "ptr"
  | .ptr (n+1) => "ptr addrspace(" ++ toString (n+1) ++ ")"
  | .void => "void"
  | .array t n => "[" ++ toString n ++ " x " ++ tyPrint t ++ "]"

/-- `type_to_string` from `source/utils/convert.hpp`: renders the type and
maps the rendering to a language tag.  Note that the source maps every
integer width (`i64`, `i32`, `i16`, `i8`) to `"!int64"` — never to
`"!int"` — and falls through to the raw rendering otherwise.  (The
fall-through also prints a warning; that diagnostic is not tracked.) -/
def type_to_string (t : Ty) : String :=
  let value := tyPrint t
  if value = "i64" then "!int64"
  else if value = "i32" then "!int64"
  else if value = "i16" then "!int64"
  else if value = "i8" then "!int64"
  else if value = "ptr" then "!str"
  else if value = "double" then "!frac"
  else if value = "i1" then "!bool"
  else if value = "void" then "!none"
  else value

/-- Modelled from the spec: `get_type_size` is called from the `!size:`
branch of `MorningLanguageLLVM::get_type`, but the class header declaring
it is not part of the sources (the shipped `morningllvm.hpp` is an older
header-only variant without it).  The spec defines the quantity as the
allocation size of the resolved type on the `x86_64-unknown-linux-gnu`
target (`DataLayout::getTypeAllocSize`): integers take their width in
bytes, `double` and pointers take 8, an array takes its element count
times the element's allocation size. -/
def get_type_size : Ty → Nat
  | .int n => (n + 7) / 8
  | .double => 8
  | .ptr _ => 8
  | .void => 0
  | .array t n => n * get_type_size t

/-- `llvm::Value`: constants, instruction results, allocas
(remembering `getAllocatedType`), globals (remembering `getValueType`)
and functions.  `nullv` stands for the C++ null `llvm::Value*`. -/
inductive Val
  | cint (bits : Nat) (v : Int)
  | cdouble (bits : Nat)
  | reg (ty : Ty) (id : Nat)
  | slot (allocated : Ty) (id : Nat)
  | globalRef (valueTy : Ty) (name : String)
  | fn (name : String)
  | nullv
  deriving DecidableEq, Repr

/-- `Value::getType`.  Alloca results, globals and functions are pointer
values (opaque pointers, address space 0).  The C++ null pointer has no
type; `nullv` is never queried on a claim-relevant path. -/
def Val.ty : Val → Ty
  | .cint b _ => .int b
  | .cdouble _ => .double
  | .reg t _ => t
  | .slot _ _ => .ptr 0
  | .globalRef _ _ => .ptr 0
  | .fn _ => .ptr 0
  | .nullv => .void

/-- `llvm::isa<llvm::Function>(value)`. -/
def Val.isFunction : Val → Bool
  | .fn _ => true
  | _ => false

/-- Integer comparison predicates used by the generator. -/
inductive IPred
  | eq | ne | sgt | slt | sge | sle
  deriving DecidableEq, Repr

/-- Ordered floating comparison predicates used by the generator. -/
inductive FPred
  | oeq | one | ogt | olt | oge | ole
  deriving DecidableEq, Repr

/-- Arithmetic opcodes emitted by `ArithmeticCodegen`. -/
inductive ArithOp
  | add | sub | mul | sdiv
  | fadd | fsub | fmul | fdiv
  deriving DecidableEq, Repr

/-- Emitted IR instructions (the subset the embedded generator
produces). -/
inductive Instr
  | arith (op : ArithOp) (l r : Val) (res : Nat)
  | icmp (p : IPred) (l r : Val) (res : Nat)
  | fcmp (p : FPred) (l r : Val) (res : Nat)
  | sitofp (v : Val) (t : Ty) (res : Nat)
  | ptrcast (v : Val) (t : Ty) (res : Nat)
  | zext (v : Val) (t : Ty) (res : Nat)
  | trunc (v : Val) (t : Ty) (res : Nat)
  | alloca (t : Ty) (name : String) (res : Nat)
  | store (v : Val) (target : Val) (res : Nat)
  | load (t : Ty) (src : Val) (name : String) (res : Nat)
  | br (target : Nat)
  | gep (t : Ty) (base : Val) (indices : List Val) (res : Nat)
  | globalString (s : String) (res : Nat)
  deriving DecidableEq, Repr

/-- The IR-emission state: instructions tagged with the basic block they
were inserted into (in emission order), the list of created blocks, the
current insertion block of `m_IR_BUILDER`, the entry block that
`m_VARS_BUILDER` targets, and fresh counters. -/
structure Builder where
  instrs : List (Nat × Instr) := []
  blocks : List (Nat × String) := [(0, "entry")]
  curBlock : Nat := 0
  entryBlock : Nat := 0
  nextReg : Nat := 0
  nextBlock : Nat := 1
  deriving DecidableEq, Repr

/-- Append an instruction at the current insertion point. -/
def Builder.emitInstr (b : Builder) (i : Instr) : Builder :=
  { b with instrs := b.instrs ++ [(b.curBlock, i)] }

/-- Result type of an arithmetic opcode (LLVM: the operands' type; the
floating opcodes are only emitted at type `double`). -/
def arithResTy (op : ArithOp) (l : Val) : Ty :=
  match op with
  | .fadd | .fsub | .fmul | .fdiv => .double
  | .add | .sub | .mul | .sdiv => l.ty

/-- `CreateAdd` / `CreateFAdd` / ... -/
def emitArith (op : ArithOp) (l r : Val) (b : Builder) : Val × Builder :=
  let id := b.nextReg
  (.reg (arithResTy op l) id,
   { b.emitInstr (.arith op l r id) with nextReg := id + 1 })

/-- `CreateICmp*`: the result is the 1-bit predicate value. -/
def emitICmp (p : IPred) (l r : Val) (b : Builder) : Val × Builder :=
  let id := b.nextReg
  (.reg (.int 1) id, { b.emitInstr (.icmp p l r id) with nextReg := id + 1 })

/-- `CreateFCmp*` (ordered): the result is the 1-bit predicate value. -/
def emitFCmp (p : FPred) (l r : Val) (b : Builder) : Val × Builder :=
  let id := b.nextReg
  (.reg (.int 1) id, { b.emitInstr (.fcmp p l r id) with nextReg := id + 1 })

/-- `CreateSIToFP`. -/
def emitSitofp (v : Val) (t : Ty) (b : Builder) : Val × Builder :=
  let id := b.nextReg
  (.reg t id, { b.emitInstr (.sitofp v t id) with nextReg := id + 1 })

/-- `CreatePointerCast`. -/
def emitPtrCast (v : Val) (t : Ty) (b : Builder) : Val × Builder :=
  let id := b.nextReg
  (.reg t id, { b.emitInstr (.ptrcast v t id) with nextReg := id + 1 })

/-- `CreateZExt`. -/
def emitZext (v : Val) (t : Ty) (b : Builder) : Val × Builder :=
  let id := b.nextReg
  (.reg t id, { b.emitInstr (.zext v t id) with nextReg := id + 1 })

/-- `CreateTrunc`. -/
def emitTrunc (v : Val) (t : Ty) (b : Builder) : Val × Builder :=
  let id := b.nextReg
  (.reg t id, { b.emitInstr (.trunc v t id) with nextReg := id + 1 })

/-- `CreateLoad`. -/
def emitLoad (t : Ty) (src : Val) (name : String) (b : Builder) : Val × Builder :=
  let id := b.nextReg
  (.reg t id, { b.emitInstr (.load t src name id) with nextReg := id + 1 })

/-- `CreateStore` (a `StoreInst` is itself a `llvm::Value` of type void; the
`var`/`const` branch returns it). -/
def emitStore (v target : Val) (b : Builder) : Val × Builder :=
  let id := b.nextReg
  (.reg .void id, { b.emitInstr (.store v target id) with nextReg := id + 1 })

/-- `CreateInBoundsGEP` (opaque-pointer result). -/
def emitGep (t : Ty) (base : Val) (idx : List Val) (b : Builder) : Val × Builder :=
  let id := b.nextReg
  (.reg (.ptr 0) id, { b.emitInstr (.gep t base idx id) with nextReg := id + 1 })

/-- `CreateGlobalStringPtr`. -/
def emitGlobalStr (s : String) (b : Builder) : Val × Builder :=
  let id := b.nextReg
  (.reg (.ptr 0) id, { b.emitInstr (.globalString s id) with nextReg := id + 1 })

/-- `CreateAlloca` through `m_VARS_BUILDER`, whose insertion point is set
to the active function's entry block right before each allocation. -/
def emitAlloca (t : Ty) (name : String) (b : Builder) : Val × Builder :=
  let id := b.nextReg
  (.slot t id,
   { b with instrs := b.instrs ++ [(b.entryBlock, .alloca t name id)],
            nextReg := id + 1 })

/-- `create_basic_block(label)` followed (where the source does it) by
inserting the block into the active function. -/
def newBlock (label : String) (b : Builder) : Nat × Builder :=
  (b.nextBlock,
   { b with blocks := b.blocks ++ [(b.nextBlock, label)],
            nextBlock := b.nextBlock + 1 })

/-- `CreateBr`: an unconditional branch at the current insertion point. -/
def emitBr (target : Nat) (b : Builder) : Builder :=
  b.emitInstr (.br target)

/-- `SetInsertPoint`. -/
def setInsert (blk : Nat) (b : Builder) : Builder :=
  { b with curBlock := blk }

/-- `implicit_cast` from `source/utils/cast.hpp`, translated clause by
clause. -/
def implicit_cast (value : Val) (target_type : Ty) (b : Builder) : Val × Builder :=
  if value.ty = target_type then
    (value, b)
  else if value.ty.isInteger && target_type.isDouble then
    emitSitofp value target_type b
  else if value.ty.isPointer && target_type.isPointer then
    emitPtrCast value target_type b
  else if value.ty.isInteger && target_type.isInteger then
    let value_bits := value.ty.intBits
    let target_bits := target_type.intBits
    if value_bits < target_bits then
      emitZext value target_type b
    else if value_bits > target_bits then
      emitTrunc value target_type b
    else
      (value, b)
  else
    (value, b)

/-- `ArithmeticCodegen::OP_MAPPING`: the operator-synonym table. -/
def OP_MAPPING : List (String × String) :=
  [("__PLUS_OPERAND__", "+"),
   ("__SUB_OPERAND__", "-"),
   ("__MUL_OPERAND__", "*"),
   ("__DIV_OPERAND__", "/"),
   ("__CMPG__", ">"),
   ("__CMPL__", "<"),
   ("__CMPGE__", ">="),
   ("__CMPLE__", "<="),
   ("__CMPEQ__", "=="),
   ("__CMPNE__", "!=")]

/-- Association-list lookup (`std::unordered_map::find` by key). -/
def alookup {α : Type} (m : List (String × α)) (k : String) : Option α :=
  match m with
  | [] => none
  | (k2, v) :: rest => if k2 = k then some v else alookup rest k

/-- `ArithmeticCodegen::get_common_type`: double if either operand's type
is double, otherwise the left operand's type. -/
def get_common_type (left right : Val) : Ty :=
  if left.ty.isDouble || right.ty.isDouble then .double else left.ty

/-- `ArithmeticCodegen::generate_binary_op`, translated branch by
branch. -/
def generate_binary_op (op : String) (left right : Val) (b : Builder) :
    Val × Builder :=
  let operation := match alookup OP_MAPPING op with
    | some o => o
    | none => op
  let common_type := get_common_type left right
  let lc := implicit_cast left common_type b
  let rc := implicit_cast right common_type lc.2
  let l := lc.1
  let r := rc.1
  let b := rc.2
  if common_type.isDouble then
    if operation = "+" then emitArith .fadd l r b
    else if operation = "-" then emitArith .fsub l r b
    else if operation = "*" then emitArith .fmul l r b
    else if operation = "/" then emitArith .fdiv l r b
    else if operation = ">" then emitFCmp .ogt l r b
    else if operation = "<" then emitFCmp .olt l r b
    else if operation = ">=" then emitFCmp .oge l r b
    else if operation = "<=" then emitFCmp .ole l r b
    else if operation = "==" then emitFCmp .oeq l r b
    else if operation = "!=" then emitFCmp .one l r b
    else (.nullv, b)
  else
    if operation = "+" then emitArith .add l r b
    else if operation = "-" then emitArith .sub l r b
    else if operation = "*" then emitArith .mul l r b
    else if operation = "/" then emitArith .sdiv l r b
    else if operation = ">" then emitICmp .sgt l r b
    else if operation = "<" then emitICmp .slt l r b
    else if operation = ">=" then emitICmp .sge l r b
    else if operation = "<=" then emitICmp .sle l r b
    else if operation = "==" then emitICmp .eq l r b
    else if operation = "!=" then emitICmp .ne l r b
    else (.nullv, b)

/-- A warning diagnostic (`LOG_WARN`): printed, execution continues. -/
inductive Warning
  | redeclaration (name : String)
  | untyped (name : String)
  deriving DecidableEq, Repr

/-- Fatal diagnostics of the type resolver (`LOG_CRITICAL` aborts the
process), plus model-only markers. -/
inductive TyErr
  | invalidSizeConstraint (varName : String)
  | sizeMismatch (varName : String) (expected actual : Nat)
  | stoullFailure (varName : String)
  | invalidPtrMissingGt (varName : String)
  | invalidArrayMissingGt (varName : String)
  | invalidArrayExpectedComma (varName : String)
  | invalidArraySizeNotPositive (varName : String)
  | invalidArraySizeNotANumber (varName : String)
  | outOfFuel
  deriving DecidableEq, Repr

/-- `p` is a prefix of `s` (`std::string::find(p) == 0`, as used for the
`!size:` / `!ptr<` / `!array<` guards). -/
def hasPfx : List Char → List Char → Bool
  | [], _ => true
  | _ :: _, [] => false
  | p :: ps, c :: cs => p = c && hasPfx ps cs

/-- `std::string::find(char)`: index of the first occurrence. -/
def cfind : List Char → Char → Option Nat
  | [], _ => none
  | c :: cs, x =>
      if c = x then some 0
      else match cfind cs x with
        | some i => some (i + 1)
        | none => none

/-- `std::string::rfind(char)`: index of the last occurrence. -/
def crfind (s : List Char) (x : Char) : Option Nat :=
  match s with
  | [] => none
  | c :: cs =>
      match crfind cs x with
      | some i => some (i + 1)
      | none => if c = x then some 0 else none

/-- C++ `size_t` subtraction: wraps modulo `2^64`.  The source computes
`colon_pos - 6` with `colon_pos = 5`, which wraps to `2^64 - 1`. -/
def usub64 (a b : Nat) : Nat :=
  (a + 2 ^ 64 - b % 2 ^ 64) % 2 ^ 64

/-- `std::string::substr(pos, count)` (count clamped to the remainder; the
positions the source passes are always in range). -/
def substrCpp (s : List Char) (pos count : Nat) : List Char :=
  (s.drop pos).take count

/-- `std::isspace` on the ASCII characters C locale classifies as space. -/
def isCSpace (c : Char) : Bool :=
  c = ' ' || c = '\t' || c = '\n' || c = '\x0b' || c = '\x0c' || c = '\r'

/-- The whitespace trim lambda inside the `!array<` branch. -/
def trimCpp (s : List Char) : List Char :=
  (s.dropWhile isCSpace).reverse.dropWhile isCSpace |>.reverse

/-- Leading decimal digits of a character list (none if the first
character is not a digit). -/
def parseDigits : List Char → Option Nat
  | [] => none
  | c :: cs =>
      if c.isDigit then
        some (go (c :: cs) 0)
      else none
where
  go : List Char → Nat → Nat
  | [], acc => acc
  | c :: cs, acc =>
      if c.isDigit then go cs (acc * 10 + (c.toNat - '0'.toNat)) else acc

/-- `std::stoull` on the strings the `!size:` branch passes (they start
with a decimal digit; parsing stops at the first non-digit).  A string
with no leading digits makes `stoull` throw, and the exception is not
caught: the process dies. -/
def stoullCpp (s : List Char) : Option Nat :=
  parseDigits (s.dropWhile isCSpace)

/-- `std::stoi` as used for the array size (the argument is already
trimmed): optional sign, then digits; no digits or overflow beyond
`int` range throws (caught by the source's `catch (...)`). -/
def stoiCpp (s : List Char) : Option Int :=
  match s with
  | '-' :: rest =>
      match parseDigits rest with
      | some n => if n ≤ 2 ^ 31 then some (-(n : Int)) else none
      | none => none
  | '+' :: rest =>
      match parseDigits rest with
      | some n => if n ≤ 2 ^ 31 - 1 then some (n : Int) else none
      | none => none
  | _ =>
      match parseDigits s with
      | some n => if n ≤ 2 ^ 31 - 1 then some (n : Int) else none
      | none => none

/-- The comma scan of the `!array<` branch: the first comma at angle
bracket nesting depth 0 (`bracket_level` is a C++ `int`, so it can go
negative on a stray closing bracket). -/
def commaScan : List Char → Int → Option Nat
  | [], _ => none
  | c :: cs, level =>
      if c = '<' then
        match commaScan cs (level + 1) with
        | some i => some (i + 1)
        | none => none
      else if c = '>' then
        match commaScan cs (level - 1) with
        | some i => some (i + 1)
        | none => none
      else if c = ',' && level = 0 then some 0
      else
        match commaScan cs level with
        | some i => some (i + 1)
        | none => none

/-- `MorningLanguageLLVM::get_type` from `source/morningllvm.cpp`
(lines 237-369), translated branch by branch on the character list of
the type tag.  Returns the warnings printed along the way and either the
resolved type or the fatal diagnostic.  Fuel bounds the recursion into
inner type tags (every recursive call is on a strictly shorter string,
so `length + 1` fuel at the entry point is never exhausted). -/
def getTypeF : Nat → List Char → String → List Warning × Except TyErr Ty
  | 0, _, _ => ([], .error .outOfFuel)
  | fuel + 1, ts, vn =>
    if ts = "!int".toList || ts = "!int64".toList then ([], .ok (.int 64))
    else if ts = "!int32".toList then ([], .ok (.int 64))
    else if ts = "!int16".toList then ([], .ok (.int 16))
    else if ts = "!int8".toList then ([], .ok (.int 8))
    else if ts = "!str".toList then ([], .ok (.ptr 0))
    else if ts = "!ptr".toList then ([], .ok (.ptr 0))
    else if ts = "!frac".toList then ([], .ok .double)
    else if ts = "!bool".toList then ([], .ok (.int 8))
    else if ts = "!none".toList then ([], .ok .void)
    else if hasPfx "!size:".toList ts then
      match cfind ts ':' with
      | none => ([], .error (.invalidSizeConstraint vn))
      | some colon_pos =>
        let base_type := ts.drop (colon_pos + 1)
        let (ws, r) := getTypeF fuel base_type vn
        match r with
        | .error e => (ws, .error e)
        | .ok t =>
          match stoullCpp (substrCpp ts 6 (usub64 colon_pos 6)) with
          | none => (ws, .error (.stoullFailure vn))
          | some expected_size =>
            let actual_size := get_type_size t
            if actual_size ≠ expected_size then
              (ws, .error (.sizeMismatch vn expected_size actual_size))
            else (ws, .ok t)
    else if hasPfx "!ptr<".toList ts then
      match cfind ts '<' with
      | none => ([], .error (.invalidPtrMissingGt vn))
      | some start =>
        match crfind ts '>' with
        | none => ([], .error (.invalidPtrMissingGt vn))
        | some e =>
          let inner := substrCpp ts (start + 1) (usub64 (usub64 e start) 1)
          let (ws, r) := getTypeF fuel inner vn
          match r with
          | .error err => (ws, .error err)
          | .ok _ => (ws, .ok (.ptr 0))
    else if hasPfx "!array<".toList ts then
      match cfind ts '<' with
      | none => ([], .error (.invalidArrayMissingGt vn))
      | some start =>
        match crfind ts '>' with
        | none => ([], .error (.invalidArrayMissingGt vn))
        | some e =>
          let inner := substrCpp ts (start + 1) (usub64 (usub64 e start) 1)
          match commaScan inner 0 with
          | none => ([], .error (.invalidArrayExpectedComma vn))
          | some comma_pos =>
            let element_type_str := trimCpp (substrCpp inner 0 comma_pos)
            let size_str := trimCpp (inner.drop (comma_pos + 1))
            match stoiCpp size_str with
            | none => ([], .error (.invalidArraySizeNotANumber vn))
            | some size =>
              if size ≤ 0 then ([], .error (.invalidArraySizeNotPositive vn))
              else
                let (ws, r) := getTypeF fuel element_type_str vn
                match r with
                | .error err => (ws, .error err)
                | .ok elem => (ws, .ok (.array elem size.toNat))
    else ([Warning.untyped vn], .ok (.int 64))

/-- `get_type` at its entry point (enough fuel for the nesting depth of
the tag). -/
def get_type (type_string : String) (var_name : String) :
    List Warning × Except TyErr Ty :=
  getTypeF (type_string.length + 1) type_string.toList var_name

/-- AST nodes (`Exp` from the parser): 64-bit signed numbers, doubles
(the IEEE-754 payload is carried as raw bits and never interpreted),
strings, symbols and lists. -/
inductive Exp
  | number (n : Int)
  | fractional (bits : Nat)
  | str (s : String)
  | sym (s : String)
  | list (xs : List Exp)
  deriving Repr

/-- The `.string` field of an AST node: set for `SYMBOL` and `STRING`
nodes, empty otherwise. -/
def expString : Exp → String
  | .sym s => s
  | .str s => s
  | _ => ""

/-- `ExpType::LIST` test. -/
def Exp.isList : Exp → Bool
  | .list _ => true
  | _ => false

/-- Numeric literals (`case ExpType::NUMBER` of `generate_expression`):
the narrowest of the 8/16/32/64-bit signed ranges containing the value
(the `static_cast` is value-preserving inside the guarding range
check). -/
def numberLiteral (n : Int) : Val :=
  if -128 ≤ n ∧ n ≤ 127 then .cint 8 n
  else if -32768 ≤ n ∧ n ≤ 32767 then .cint 16 n
  else if -2147483648 ≤ n ∧ n ≤ 2147483647 then .cint 32 n
  else .cint 64 n

/-- The string-escape replacement (`replace_regex_in_string`): one pass
replacing the two-character sequence backslash-`n`, then one pass for
backslash-`t`. -/
def replaceOnce (target rep : Char) : List Char → List Char
  | '\\' :: c :: rest =>
      if c = target then rep :: replaceOnce target rep rest
      else '\\' :: replaceOnce target rep (c :: rest)
  | c :: rest => c :: replaceOnce target rep rest
  | [] => []

/-- `replace_regex_in_string` from `source/morningllvm.cpp`. -/
def replace_regex_in_string (s : String) : String :=
  ⟨replaceOnce 't' '\t' (replaceOnce 'n' '\n' s.toList)⟩

/-- `extract_var_name`: a list declarator's first child's string, else the
node's own string. -/
def extract_var_name : Exp → String
  | .list xs =>
      match xs.get? 0 with
      | some e => expString e
      | none => ""
  | e => expString e

/-- A lexical scope (`Environment` from `source/env.h`): a record of
bindings and an optional parent. -/
inductive Env
  | scopeNode (record : List (String × Val)) (parent : Option Env)
  deriving Repr

/-- `std::map::operator[] =`: overwrite or insert a key. -/
def assocSet {α : Type} (m : List (String × α)) (k : String) (v : α) :
    List (String × α) :=
  match m with
  | [] => [(k, v)]
  | (k2, v2) :: rest => if k2 = k then (k, v) :: rest else (k2, v2) :: assocSet rest k v

/-- `std::map::count(k) != 0`. -/
def containsKey {α : Type} (m : List (String × α)) (k : String) : Bool :=
  (alookup m k).isSome

/-- `Environment::define`: insert into the current scope only. -/
def Env.defineVar : Env → String → Val → Env
  | .scopeNode record parent, name, v => .scopeNode (assocSet record name v) parent

/-- `Environment::resolve` / `lookup_by_name` as a partial lookup: walk
the parent chain.  In the source a failed lookup is itself fatal
(`LOG_CRITICAL "Variable ... is not defined"`); callers of this model
function turn `none` into that fatal error. -/
def Env.resolveVal : Env → String → Option Val
  | .scopeNode record parent, name =>
      match alookup record name with
      | some v => some v
      | none =>
          match parent with
          | some p => p.resolveVal name
          | none => none

/-- A loop frame (`LoopBlocks`): the `break` target and the `continue`
target.  `m_LOOP_STACK` is a `std::vector` used as a stack via
`push_back`/`back`/`pop_back`; the model stores it top-first (the list
head is `back()`). -/
structure LoopBlocks where
  break_blog : Nat
  continue_block : Nat
  deriving DecidableEq, Repr

/-- Process-wide compiler state outside the builders: the
constants/variables registries (`m_CONSTANTS`, `m_VARIABLES`), the
array-type map (`m_ARRAY_TYPES`), the loop stack and accumulated
warnings. -/
structure CGState where
  bld : Builder := {}
  constantsMap : List (String × Val) := []
  variablesMap : List (String × Val) := []
  arrayTypes : List (String × Ty) := []
  loopStack : List LoopBlocks := []
  warnings : List Warning := []
  deriving Repr

/-- Fatal diagnostics of the code generator (every `LOG_CRITICAL` aborts
compilation), plus the model-only markers `outOfFuel` (fuel exhausted)
and `unmodeled` (an AST form outside the embedded subset, or an
out-of-bounds `std::vector` access that is undefined behavior in the
source). -/
inductive Err
  | outOfFuel
  | unmodeled (what : String)
  | emptyList
  | plusArity
  | undefinedVariable (name : String)
  | constantWrite (name : String)
  | alreadyDefined (name : String)
  | breakOutsideLoop
  | continueOutsideLoop
  | setTypeMismatch (name : String)
  | initTypeMismatch (name : String)
  | typeResolution (e : TyErr)
  | indexRequiresTwoArgs
  | indexFirstArgNotSymbol
  | arrayNotFound (name : String)
  | indexNotInteger
  deriving DecidableEq, Repr

/-- `MorningLanguageLLVM::alloc_var` (lines 392-412): probe the
environment for the name — `Environment::lookup_by_name` is fatal when
the name is missing anywhere in the chain — warn about redeclaration
when it is found, hoist an `alloca` into the entry block and bind the
name in the current scope. -/
def alloc_var (name : String) (var_type : Ty) (env : Env) (s : CGState) :
    Except Err (Val × Env × CGState) :=
  match env.resolveVal name with
  | none => .error (.undefinedVariable name)
  | some _ =>
      let s1 : CGState := { s with warnings := s.warnings ++ [.redeclaration name] }
      let (allocated_var, b) := emitAlloca var_type name s1.bld
      .ok (allocated_var, env.defineVar name allocated_var, { s1 with bld := b })

/-- `MorningLanguageLLVM::extract_var_type`: a list declarator resolves
its second child's tag string (warnings included); a bare name defaults
to the 64-bit integer.  The `modelOutOfBounds` marker stands for the
undefined behavior of reading `list[1]` of a too-short declarator. -/
def extract_var_type (e : Exp) : List Warning × Except TyErr Ty :=
  match e with
  | .list xs =>
      match xs.get? 1, xs.get? 0 with
      | some t, some n => get_type (expString t) (expString n)
      | _, _ => ([], .error (.invalidSizeConstraint "model-out-of-bounds"))
  | _ => ([], .ok (.int 64))

/-- The operator strings routed to `ArithmeticCodegen` by
`generate_expression`. -/
def arithmeticOps : List String :=
  ["+", "-", "*", "/", ">", "<", ">=", "<=", "==", "!=",
   "__PLUS_OPERAND__", "__SUB_OPERAND__", "__MUL_OPERAND__", "__DIV_OPERAND__",
   "__CMPG__", "__CMPL__", "__CMPGE__", "__CMPLE__", "__CMPEQ__", "__CMPNE__"]

/-- `ArrayType::getElementType`. -/
def Ty.elemTy : Ty → Ty
  | .array e _ => e
  | t => t

/-- `MorningLanguageLLVM::generate_expression`, translated branch by
branch for the AST subset the claims exercise: literals, symbols, the
arithmetic/comparison operators, `break`, `continue`, `set` (both the
bare-symbol and the `(index ...)` target form), `var`/`const` and
`scope`.  Every other list head (loops, conditionals, memory and I/O
intrinsics, `func`, plain calls) is mapped to the model-only
`Err.unmodeled`.  Fuel bounds the recursion (one unit per nesting level;
the `scope` loop hands the decremented fuel to every child); the
traceback push at the top of the source function is diagnostic-only and
not tracked. -/
def gen : Nat → Exp → Env → CGState → Except Err (Val × Env × CGState)
  | 0, _, _, _ => .error .outOfFuel
  | fuel + 1, exp, env, s =>
    match exp with
    | .number n => .ok (numberLiteral n, env, s)
    | .fractional bits => .ok (.cdouble bits, env, s)
    | .str lit =>
        let (v, b) := emitGlobalStr (replace_regex_in_string lit) s.bld
        .ok (v, env, { s with bld := b })
    | .sym name =>
        if name = "true" || name = "false" then
          .ok (.cint 8 (if name = "true" then 1 else 0), env, s)
        else
          match env.resolveVal name with
          | none => .error (.undefinedVariable name)
          | some value =>
              if value.isFunction then .ok (value, env, s)
              else
                match value with
                | .slot pointee _ =>
                    let (v, b) := emitLoad pointee value name s.bld
                    .ok (v, env, { s with bld := b })
                | .globalRef pointee _ =>
                    let (v, b) := emitLoad pointee value name s.bld
                    .ok (v, env, { s with bld := b })
                | _ =>
                    let (v, b) := emitLoad value.ty value name s.bld
                    .ok (v, env, { s with bld := b })
    | .list xs =>
      match xs with
      | [] => .error .emptyList
      | x0 :: _ =>
        if expString x0 = "+" && xs.length < 3 then .error .plusArity
        else
          match x0 with
          | .sym oper =>
            if arithmeticOps.contains oper then
              match xs.get? 1, xs.get? 2 with
              | some a1, some a2 =>
                  (match gen fuel a1 env s with
                   | .error e => .error e
                   | .ok (left, env1, s1) =>
                     match gen fuel a2 env1 s1 with
                     | .error e => .error e
                     | .ok (right, env2, s2) =>
                         let (v, b) := generate_binary_op oper left right s2.bld
                         .ok (v, env2, { s2 with bld := b }))
              | _, _ => .error (.unmodeled "oob list access")
            else if oper = "break" then
              match s.loopStack with
              | [] => .error .breakOutsideLoop
              | loop :: _ =>
                  let b := emitBr loop.break_blog s.bld
                  let (after, b) := newBlock "after_break" b
                  let b := setInsert after b
                  .ok (.cint 64 0, env, { s with bld := b })
            else if oper = "continue" then
              match s.loopStack with
              | [] => .error .continueOutsideLoop
              | loop :: _ =>
                  let b := emitBr loop.continue_block s.bld
                  let (after, b) := newBlock "after_continue" b
                  let b := setInsert after b
                  .ok (.cint 64 0, env, { s with bld := b })
            else if oper = "set" then
              match xs.get? 1, xs.get? 2 with
              | some target, some valueExp =>
                  (match (match target with
                          | .list (t0 :: trest) =>
                              if expString t0 = "index" then some (t0 :: trest)
                              else none
                          | _ => none : Option (List Exp)) with
                   | some tlist =>
                     -- `set` to an `(index NAME IDX)` target (lines 1103-1145):
                     -- the constants registry is never consulted on this path.
                     (match tlist with
                      | [_, .sym array_name, idxExp] =>
                          (match alookup s.arrayTypes array_name with
                           | none => .error (.arrayNotFound array_name)
                           | some array_type =>
                             match env.resolveVal array_name with
                             | none => .error (.undefinedVariable array_name)
                             | some array_ptr =>
                               match gen fuel idxExp env s with
                               | .error e => .error e
                               | .ok (index_val, env1, s1) =>
                                 match gen fuel valueExp env1 s1 with
                                 | .error e => .error e
                                 | .ok (value, env2, s2) =>
                                   if ¬ index_val.ty.isInteger then
                                     .error .indexNotInteger
                                   else
                                     let zero : Val := .cint 64 0
                                     let (element_ptr, b) :=
                                       emitGep array_type array_ptr [zero, index_val] s2.bld
                                     let (value2, b) :=
                                       implicit_cast value array_type.elemTy b
                                     let (_, b) := emitStore value2 element_ptr b
                                     .ok (value2, env2, { s2 with bld := b }))
                      | [_, _, _] => .error .indexFirstArgNotSymbol
                      | _ => .error .indexRequiresTwoArgs)
                   | none =>
                     -- bare-symbol `set` (lines 1146-1182): the constants
                     -- registry is consulted before anything is generated.
                     let var_name := expString target
                     if containsKey s.constantsMap var_name then
                       .error (.constantWrite var_name)
                     else
                       match gen fuel valueExp env s with
                       | .error e => .error e
                       | .ok (value, env1, s1) =>
                         match env1.resolveVal var_name with
                         | none => .error (.undefinedVariable var_name)
                         | some var_binding =>
                           match (match var_binding with
                                  | .slot t _ => some t
                                  | .globalRef t _ => some t
                                  | _ => none : Option Ty) with
                           | none => .error (.unmodeled "set target without an allocated type")
                           | some var_type =>
                             let validated : Except Err (Val × Builder) :=
                               if value.ty ≠ var_type
                                   ∧ type_to_string value.ty ≠ type_to_string var_type then
                                 if value.ty.isInteger && var_type.isDouble then
                                   .ok (emitSitofp value var_type s1.bld)
                                 else .error (.setTypeMismatch var_name)
                               else .ok (value, s1.bld)
                             match validated with
                             | .error e => .error e
                             | .ok (value2, b) =>
                               let (_, b2) := emitStore value2 var_binding b
                               .ok (value2, env1, { s1 with bld := b2 }))
              | _, _ => .error (.unmodeled "oob list access")
            else if oper = "var" || oper = "const" then
              match xs.get? 1, xs.get? 2 with
              | some namedecl, some initExp =>
                  let var_name := extract_var_name namedecl
                  if containsKey s.constantsMap var_name
                      || containsKey s.variablesMap var_name then
                    .error (.alreadyDefined var_name)
                  else
                    (match gen fuel initExp env s with
                     | .error e => .error e
                     | .ok (init, env1, s1) =>
                       let (ws, tr) := extract_var_type namedecl
                       let s2 : CGState := { s1 with warnings := s1.warnings ++ ws }
                       match tr with
                       | .error te => .error (.typeResolution te)
                       | .ok var_type =>
                         let s3 : CGState :=
                           if var_type.isArray then
                             { s2 with arrayTypes := assocSet s2.arrayTypes var_name var_type }
                           else s2
                         let validated : Except Err (Val × Builder) :=
                           if (init.ty ≠ var_type ∧ type_to_string var_type = "!int")
                               ∨ type_to_string var_type = "!frac" then
                             if init.ty.isInteger && var_type.isDouble then
                               .ok (emitSitofp init var_type s3.bld)
                             else .error (.initTypeMismatch var_name)
                           else .ok (init, s3.bld)
                         match validated with
                         | .error e => .error e
                         | .ok (init2, b) =>
                           match alloc_var var_name var_type env1 { s3 with bld := b } with
                           | .error e => .error e
                           | .ok (var_binding, env2, s4) =>
                             let s5 : CGState :=
                               if oper = "const" then
                                 { s4 with constantsMap :=
                                     assocSet s4.constantsMap var_name var_binding }
                               else
                                 { s4 with variablesMap :=
                                     assocSet s4.variablesMap var_name var_binding }
                             let (store_val, b2) := emitStore init2 var_binding s5.bld
                             .ok (store_val, env2, { s5 with bld := b2 }))
              | _, _ => .error (.unmodeled "oob list access")
            else if oper = "scope" then
              let block_env : Env := .scopeNode [] (some env)
              match (xs.drop 1).foldlM
                      (fun acc c => gen fuel c acc.2.1 acc.2.2)
                      ((Val.nullv, block_env, s) : Val × Env × CGState) with
              | .error e => .error e
              | .ok (block_res, _, s1) => .ok (block_res, env, s1)
            else .error (.unmodeled oper)
          | _ => .error (.unmodeled "call")

/-- The global environment after `setup_global_environment` and
`create_function("main", ...)`: the `_VERSION` global (a 64-bit constant
global) and the `main` function reference. -/
def initialEnv : Env :=
  .scopeNode [("_VERSION", .globalRef (.int 64) "_VERSION"), ("main", .fn "main")] none

/-- The compiler state when `generate_expression` is first entered from
`generate_ir`: empty registries, empty loop stack, insertion at `main`'s
entry block. -/
def initialState : CGState := {}

/-- `execute`/`generate_ir` up to the root `generate_expression` call:
the driver parses `"[scope " + program + "]"`, so the root expression
handed to the generator is the scope-wrapped program. -/
def compileProgram (fuel : Nat) (wrapped : Exp) : Except Err (Val × Env × CGState) :=
  gen fuel wrapped initialEnv initialState

/-- Spec-side (§4.4.2): the claimed operator table, each mangled synonym
next to its canonical operator. -/
def opSynonymPairs : List (String × String) :=
  [("+", "+"), ("-", "-"), ("*", "*"), ("/", "/"),
   (">", ">"), ("<", "<"), (">=", ">="), ("<=", "<="), ("==", "=="), ("!=", "!="),
   ("__PLUS_OPERAND__", "+"), ("__SUB_OPERAND__", "-"),
   ("__MUL_OPERAND__", "*"), ("__DIV_OPERAND__", "/"),
   ("__CMPG__", ">"), ("__CMPL__", "<"), ("__CMPGE__", ">="),
   ("__CMPLE__", "<="), ("__CMPEQ__", "=="), ("__CMPNE__", "!=")]

/-- Spec-side (§4.4.2): the claimed floating opcodes — `fadd`/`fsub`/
`fmul`/`fdiv` and the ordered floating compares. -/
def specFloatOp (base : String) (l r : Val) (b : Builder) : Val × Builder :=
  if base = "+" then emitArith .fadd l r b
  else if base = "-" then emitArith .fsub l r b
  else if base = "*" then emitArith .fmul l r b
  else if base = "/" then emitArith .fdiv l r b
  else if base = ">" then emitFCmp .ogt l r b
  else if base = "<" then emitFCmp .olt l r b
  else if base = ">=" then emitFCmp .oge l r b
  else if base = "<=" then emitFCmp .ole l r b
  else if base = "==" then emitFCmp .oeq l r b
  else if base = "!=" then emitFCmp .one l r b
  else (.nullv, b)

/-- Spec-side (§4.4.2): the claimed integer opcodes — signed division and
signed comparison predicates. -/
def specIntOp (base : String) (l r : Val) (b : Builder) : Val × Builder :=
  if base = "+" then emitArith .add l r b
  else if base = "-" then emitArith .sub l r b
  else if base = "*" then emitArith .mul l r b
  else if base = "/" then emitArith .sdiv l r b
  else if base = ">" then emitICmp .sgt l r b
  else if base = "<" then emitICmp .slt l r b
  else if base = ">=" then emitICmp .sge l r b
  else if base = "<=" then emitICmp .sle l r b
  else if base = "==" then emitICmp .eq l r b
  else if base = "!=" then emitICmp .ne l r b
  else (.nullv, b)

/-- Spec-side (§4.4.2): the whole claimed pipeline — the common type is
double if either operand's type is double and otherwise the left
operand's type; both operands are implicitly cast to it; the floating
opcode family is used exactly when the common type is double. -/
def specBinaryOp (base : String) (left right : Val) (b : Builder) : Val × Builder :=
  let common := if left.ty.isDouble || right.ty.isDouble then Ty.double else left.ty
  let lc := implicit_cast left common b
  let rc := implicit_cast right common lc.2
  if common.isDouble then specFloatOp base lc.1 rc.1 rc.2
  else specIntOp base lc.1 rc.1 rc.2

/-- Spec-side (§4.4.1): the value `n` is inside the `w`-bit signed
range. -/
def fitsSigned (w : Nat) (n : Int) : Prop :=
  -(2 ^ (w - 1)) ≤ n ∧ n ≤ 2 ^ (w - 1) - 1

instance (w : Nat) (n : Int) : Decidable (fitsSigned w n) := by
  unfold fitsSigned
  infer_instance

lemma specBinaryOp_cmp_ty (base : String)
    (hb : base ∈ ([">", "<", ">=", "<=", "==", "!="] : List String))
    (l r : Val) (b : Builder) : ((specBinaryOp base l r b).1).ty = .int 1 := by
  fin_cases hb <;> cases hl : l.ty <;> cases hr : r.ty <;>
    (simp only [specBinaryOp, hl, hr]) <;> rfl

/-- Claim C1: for every arithmetic or comparison form (the ten operators
and their mangled synonyms), the generator agrees with the claimed
pipeline: the common type is double if either operand's type is double
and otherwise the left operand's type, both operands are implicitly
cast to it, the floating opcodes (`fadd`/`fsub`/`fmul`/`fdiv`, ordered
floating compares) are emitted exactly when the common type is double
and otherwise the integer opcodes with signed division and signed
comparison predicates; comparisons return the 1-bit predicate value. -/
theorem c1_binary_op_refines_spec :
    ∀ op base (left right : Val) (b : Builder),
      (op, base) ∈ opSynonymPairs →
      generate_binary_op op left right b = specBinaryOp base left right b
      ∧ (base ∈ ([">", "<", ">=", "<=", "==", "!="] : List String) →
          ((generate_binary_op op left right b).1).ty = .int 1) := by
  intro op base left right b h
  fin_cases h <;>
    exact ⟨rfl, fun hb => by
      have hs := specBinaryOp_cmp_ty _ hb left right b
      simpa using hs⟩

/-- Claim C1 witness: the mangled equality synonym at concrete operands,
and its 1-bit comparison result type. -/
theorem c1_binary_op_refines_spec_witness :
    generate_binary_op "__CMPEQ__" (.cint 8 1) (.cdouble 0) {} =
      specBinaryOp "==" (.cint 8 1) (.cdouble 0) {}
    ∧ ((generate_binary_op "__CMPEQ__" (.cint 8 1) (.cdouble 0) {}).1).ty = .int 1 := by
  have h := c1_binary_op_refines_spec "__CMPEQ__" "==" (.cint 8 1) (.cdouble 0) {}
    (by decide)
  exact ⟨h.1, h.2 (by decide)⟩

/-- Claim C2 (code bug evidence): on `[scope [const x 3] [set x 4]]` the
compiler aborts already at the `const` declaration with the
undefined-variable diagnostic — `alloc_var` probes the fresh name and
`Environment::lookup_by_name` is fatal on a missing name — so the
constant-write diagnostic the claim (and the `set` branch itself)
prescribes is never reached.  The second conjunct shows the `set`
branch does produce exactly the claimed fatal constant-write when the
declaration succeeds (possible for a name already bound in the
environment, such as the built-in `_VERSION`). -/
theorem c2_const_then_set_evaluation :
    compileProgram 10 (.list [.sym "scope",
        .list [.sym "const", .sym "x", .number 3],
        .list [.sym "set", .sym "x", .number 4]]) =
      .error (.undefinedVariable "x")
    ∧ compileProgram 10 (.list [.sym "scope",
        .list [.sym "const", .sym "_VERSION", .number 3],
        .list [.sym "set", .sym "_VERSION", .number 4]]) =
      .error (.constantWrite "_VERSION") := by
  exact ⟨rfl, rfl⟩

/-- Claim C3 counterexample: `[scope [var _VERSION 1] [var _VERSION 2]]`
declares the same name twice in the same scope, and compilation is a
fatal "already defined" error rather than the claimed
warning-and-continue. -/
theorem c3_same_scope_redecl_counterexample :
    compileProgram 10 (.list [.sym "scope",
        .list [.sym "var", .sym "_VERSION", .number 1],
        .list [.sym "var", .sym "_VERSION", .number 2]]) =
      .error (.alreadyDefined "_VERSION") := by
  rfl

/-- Claim C3 (amended): a second `var`/`const` declaration of a name
already recorded in the constants/variables registries is a fatal
"already defined" error in every state; the redeclaration warning with
compilation continuing is emitted only when the declared name is bound
in the environment without being in those registries (here: the
built-in `_VERSION`, whose single declaration warns and succeeds). -/
theorem c3_redeclaration_behavior :
    ∀ (fuel : Nat) (env : Env) (s : CGState),
      ((containsKey s.constantsMap "_VERSION"
          || containsKey s.variablesMap "_VERSION") = true →
        gen (fuel + 1) (.list [.sym "var", .sym "_VERSION", .number 1]) env s =
          .error (.alreadyDefined "_VERSION"))
    ∧ compileProgram 10 (.list [.sym "scope",
          .list [.sym "var", .sym "_VERSION", .number 1]]) =
        .ok (.reg .void 1, initialEnv,
          { bld := { instrs := [(0, .alloca (.int 64) "_VERSION" 0),
                                (0, .store (.cint 8 1) (.slot (.int 64) 0) 1)],
                     nextReg := 2 },
            variablesMap := [("_VERSION", .slot (.int 64) 0)],
            warnings := [.redeclaration "_VERSION"] }) := by
  intro fuel env s
  constructor
  · intro h
    obtain ⟨bld, cm, vm, arr, ls, ws⟩ := s
    have h2 : containsKey cm "_VERSION" = true ∨ containsKey vm "_VERSION" = true := by
      simpa using h
    simp only [gen]
    rcases h2 with h1 | h1 <;> simp [h1, arithmeticOps, extract_var_name, expString]
  · rfl

/-- Claim C3 witness for the amended claim: a state whose variables
registry already holds `_VERSION` makes the declaration fatal, and the
reachable single-declaration program warns and succeeds. -/
theorem c3_redeclaration_behavior_witness :
    gen 6 (.list [.sym "var", .sym "_VERSION", .number 1]) initialEnv
        { variablesMap := [("_VERSION", .nullv)] } =
      .error (.alreadyDefined "_VERSION")
    ∧ compileProgram 10 (.list [.sym "scope",
          .list [.sym "var", .sym "_VERSION", .number 1]]) =
        .ok (.reg .void 1, initialEnv,
          { bld := { instrs := [(0, .alloca (.int 64) "_VERSION" 0),
                                (0, .store (.cint 8 1) (.slot (.int 64) 0) 1)],
                     nextReg := 2 },
            variablesMap := [("_VERSION", .slot (.int 64) 0)],
            warnings := [.redeclaration "_VERSION"] }) := by
  have h := c3_redeclaration_behavior 5 initialEnv { variablesMap := [("_VERSION", .nullv)] }
  exact ⟨h.1 (by decide), h.2⟩

/-- Claim C4 (code bug evidence): first conjunct — declaring
`(_VERSION !int8)` with initializer `300` (a 16-bit constant) succeeds
with no diagnostic and emits the store of the mismatched 16-bit value
into the 8-bit slot, because the validation condition can only fire
when the declared type prints as `!frac` (the `&&`/`||` precedence in
the source makes the condition `(mismatch ∧ tag = "!int") ∨ tag =
"!frac"`, and `type_to_string` never returns `"!int"`).  Second
conjunct — the same condition fires even on a well-typed `!frac`
declaration with a double initializer, which is (spuriously) fatal. -/
theorem c4_var_init_mismatch_evaluation :
    compileProgram 10 (.list [.sym "scope",
        .list [.sym "var", .list [.sym "_VERSION", .sym "!int8"], .number 300]]) =
      .ok (.reg .void 1, initialEnv,
        { bld := { instrs := [(0, .alloca (.int 8) "_VERSION" 0),
                              (0, .store (.cint 16 300) (.slot (.int 8) 0) 1)],
                   nextReg := 2 },
          variablesMap := [("_VERSION", .slot (.int 8) 0)],
          warnings := [.redeclaration "_VERSION"] })
    ∧ compileProgram 10 (.list [.sym "scope",
        .list [.sym "var", .list [.sym "_VERSION", .sym "!frac"], .fractional 0]]) =
      .error (.initTypeMismatch "_VERSION") := by
  exact ⟨rfl, rfl⟩

/-- Claim C5 (code bug evidence): the resolver maps `!int16` and `!int8`
to the 16- and 8-bit integer types as claimed, but maps `!int32` to the
64-bit integer type, not the claimed 32-bit one. -/
theorem c5_int_width_tags_evaluation :
    get_type "!int32" "x" = ([], .ok (.int 64))
    ∧ get_type "!int16" "x" = ([], .ok (.int 16))
    ∧ get_type "!int8" "x" = ([], .ok (.int 8)) := by
  exact ⟨rfl, rfl, rfl⟩

/-- Claim C6: `implicit_cast` returns the value unchanged at the target
type; converts an integer value to a double target by signed
conversion; casts a pointer value to a different pointer type by a
pointer cast; zero-extends or truncates between integer widths; and
returns every other pair unchanged. -/
theorem c6_implicit_cast_clauses :
    ∀ (v : Val) (t : Ty) (b : Builder),
      (v.ty = t → implicit_cast v t b = (v, b))
    ∧ (v.ty.isInteger = true → t = .double → implicit_cast v t b = emitSitofp v t b)
    ∧ (v.ty ≠ t → v.ty.isPointer = true → t.isPointer = true →
        implicit_cast v t b = emitPtrCast v t b)
    ∧ (v.ty.isInteger = true → t.isInteger = true → v.ty.intBits < t.intBits →
        implicit_cast v t b = emitZext v t b)
    ∧ (v.ty.isInteger = true → t.isInteger = true → t.intBits < v.ty.intBits →
        implicit_cast v t b = emitTrunc v t b)
    ∧ (v.ty ≠ t →
        ¬(v.ty.isInteger = true ∧ t = .double) →
        ¬(v.ty.isPointer = true ∧ t.isPointer = true) →
        ¬(v.ty.isInteger = true ∧ t.isInteger = true) →
        implicit_cast v t b = (v, b)) := by
  intro v t b
  refine ⟨?_, ?_, ?_, ?_, ?_, ?_⟩
  · intro h
    simp [implicit_cast, h]
  · intro hint ht
    subst ht
    have hne : v.ty ≠ .double := by
      cases hv : v.ty <;> simp_all [Ty.isInteger]
    simp [implicit_cast, hne, hint, Ty.isDouble]
  · intro hne hp tp
    have h1 : v.ty.isInteger = false := by
      cases hv : v.ty <;> simp_all [Ty.isInteger, Ty.isPointer]
    simp [implicit_cast, hne, h1, hp, tp]
  · intro hint htint hlt
    have hne : v.ty ≠ t := by
      intro he
      rw [he] at hlt
      exact absurd hlt (lt_irrefl _)
    have hd : t.isDouble = false := by
      cases t <;> simp_all [Ty.isInteger, Ty.isDouble]
    have hp : v.ty.isPointer = false := by
      cases hv : v.ty <;> simp_all [Ty.isInteger, Ty.isPointer]
    simp [implicit_cast, hne, hint, htint, hd, hp, hlt]
  · intro hint htint hlt
    have hne : v.ty ≠ t := by
      intro he
      rw [he] at hlt
      exact absurd hlt (lt_irrefl _)
    have hd : t.isDouble = false := by
      cases t <;> simp_all [Ty.isInteger, Ty.isDouble]
    have hp : v.ty.isPointer = false := by
      cases hv : v.ty <;> simp_all [Ty.isInteger, Ty.isPointer]
    have hnlt : ¬(v.ty.intBits < t.intBits) := by omega
    simp [implicit_cast, hne, hint, htint, hd, hp, hlt, hnlt]
  · intro hne h2 h3 h4
    have hb2 : (v.ty.isInteger && t.isDouble) = false := by
      cases t <;> simp_all [Ty.isDouble]
    have hb3 : (v.ty.isPointer && t.isPointer) = false := by
      cases t <;> cases hv : v.ty <;> simp_all [Ty.isPointer]
    have hb4 : (v.ty.isInteger && t.isInteger) = false := by
      cases t <;> cases hv : v.ty <;> simp_all [Ty.isInteger]
    simp [implicit_cast, hne, hb2, hb3, hb4]

/-- Claim C6 witness: the identity, signed int-to-double and widening
clauses at concrete inputs. -/
theorem c6_implicit_cast_clauses_witness :
    implicit_cast (.cint 8 1) (.int 8) {} = (.cint 8 1, {})
    ∧ implicit_cast (.cint 8 1) .double {} = emitSitofp (.cint 8 1) .double {}
    ∧ implicit_cast (.cint 8 1) (.int 64) {} = emitZext (.cint 8 1) (.int 64) {} := by
  refine ⟨(c6_implicit_cast_clauses (.cint 8 1) (.int 8) {}).1 (by decide), ?_, ?_⟩
  · exact (c6_implicit_cast_clauses (.cint 8 1) .double {}).2.1 (by decide) rfl
  · exact (c6_implicit_cast_clauses (.cint 8 1) (.int 64) {}).2.2.2.1
      (by decide) (by decide) (by decide)

/-- Claim C7: every integer literal in the 64-bit signed range is
materialized as a constant of the narrowest signed integer type among
8, 16, 32 and 64 bits whose range contains it, with the value
preserved. -/
theorem c7_number_literal_narrowest :
    ∀ n : Int, fitsSigned 64 n →
      ∃ w, numberLiteral n = .cint w n
        ∧ w ∈ ([8, 16, 32, 64] : List Nat)
        ∧ fitsSigned w n
        ∧ ∀ w2, w2 ∈ ([8, 16, 32, 64] : List Nat) → fitsSigned w2 n → w ≤ w2 := by
  intro n hn
  unfold numberLiteral
  split_ifs with h1 h2 h3
  · refine ⟨8, rfl, by norm_num, ?_, ?_⟩
    · norm_num [fitsSigned]
      omega
    · intro w2 hw2 _
      fin_cases hw2 <;> norm_num
  · refine ⟨16, rfl, by norm_num, ?_, ?_⟩
    · norm_num [fitsSigned]
      omega
    · intro w2 hw2 hf2
      fin_cases hw2
      · exfalso
        norm_num [fitsSigned] at hf2
        omega
      · norm_num
      · norm_num
      · norm_num
  · refine ⟨32, rfl, by norm_num, ?_, ?_⟩
    · norm_num [fitsSigned]
      omega
    · intro w2 hw2 hf2
      fin_cases hw2
      · exfalso
        norm_num [fitsSigned] at hf2
        omega
      · exfalso
        norm_num [fitsSigned] at hf2
        omega
      · norm_num
      · norm_num
  · refine ⟨64, rfl, by norm_num, hn, ?_⟩
    intro w2 hw2 hf2
    fin_cases hw2
    · exfalso
      norm_num [fitsSigned] at hf2
      omega
    · exfalso
      norm_num [fitsSigned] at hf2
      omega
    · exfalso
      norm_num [fitsSigned] at hf2
      omega
    · norm_num

/-- Claim C7 witness: the literal `300` needs 16 bits. -/
theorem c7_number_literal_narrowest_witness :
    ∃ w, numberLiteral 300 = .cint w 300
      ∧ w ∈ ([8, 16, 32, 64] : List Nat)
      ∧ fitsSigned w 300
      ∧ ∀ w2, w2 ∈ ([8, 16, 32, 64] : List Nat) → fitsSigned w2 300 → w ≤ w2 := by
  exact c7_number_literal_narrowest 300 (by decide)

/-- Claim C8: compiling `(break)` or `(continue)` with an empty loop
stack is fatal; with a non-empty stack the generator emits an
unconditional branch to the top frame's break/continue target block and
retargets insertion to a freshly created "after" block. -/
theorem c8_break_continue_loop_stack :
    ∀ (fuel : Nat) (env : Env) (s : CGState),
      (s.loopStack = [] →
        gen (fuel + 1) (.list [.sym "break"]) env s = .error .breakOutsideLoop)
    ∧ (∀ loop rest, s.loopStack = loop :: rest →
        gen (fuel + 1) (.list [.sym "break"]) env s =
          .ok (.cint 64 0, env,
            { s with bld :=
              { s.bld with
                  instrs := s.bld.instrs ++ [(s.bld.curBlock, .br loop.break_blog)],
                  blocks := s.bld.blocks ++ [(s.bld.nextBlock, "after_break")],
                  curBlock := s.bld.nextBlock,
                  nextBlock := s.bld.nextBlock + 1 } }))
    ∧ (s.loopStack = [] →
        gen (fuel + 1) (.list [.sym "continue"]) env s = .error .continueOutsideLoop)
    ∧ (∀ loop rest, s.loopStack = loop :: rest →
        gen (fuel + 1) (.list [.sym "continue"]) env s =
          .ok (.cint 64 0, env,
            { s with bld :=
              { s.bld with
                  instrs := s.bld.instrs ++ [(s.bld.curBlock, .br loop.continue_block)],
                  blocks := s.bld.blocks ++ [(s.bld.nextBlock, "after_continue")],
                  curBlock := s.bld.nextBlock,
                  nextBlock := s.bld.nextBlock + 1 } })) := by
  intro fuel env s
  obtain ⟨bld, cm, vm, arr, ls, ws⟩ := s
  refine ⟨?_, ?_, ?_, ?_⟩
  · intro h
    cases h
    rfl
  · intro loop rest h
    cases h
    rfl
  · intro h
    cases h
    rfl
  · intro loop rest h
    cases h
    rfl

/-- Claim C8 witness: both operators at the initial (empty) stack and at
a stack whose top frame is `(7, 8)`. -/
theorem c8_break_continue_loop_stack_witness :
    gen 1 (.list [.sym "break"]) initialEnv initialState = .error .breakOutsideLoop
    ∧ gen 1 (.list [.sym "break"]) initialEnv
        { initialState with loopStack := [⟨7, 8⟩] } =
      .ok (.cint 64 0, initialEnv,
        { ({ initialState with loopStack := [⟨7, 8⟩] } : CGState) with bld :=
          { initialState.bld with
              instrs := [(0, .br 7)],
              blocks := [(0, "entry"), (1, "after_break")],
              curBlock := 1,
              nextBlock := 2 } })
    ∧ gen 1 (.list [.sym "continue"]) initialEnv initialState = .error .continueOutsideLoop
    ∧ gen 1 (.list [.sym "continue"]) initialEnv
        { initialState with loopStack := [⟨7, 8⟩] } =
      .ok (.cint 64 0, initialEnv,
        { ({ initialState with loopStack := [⟨7, 8⟩] } : CGState) with bld :=
          { initialState.bld with
              instrs := [(0, .br 8)],
              blocks := [(0, "entry"), (1, "after_continue")],
              curBlock := 1,
              nextBlock := 2 } }) := by
  refine ⟨?_, ?_, ?_, ?_⟩
  · exact (c8_break_continue_loop_stack 0 initialEnv initialState).1 rfl
  · exact (c8_break_continue_loop_stack 0 initialEnv
      { initialState with loopStack := [⟨7, 8⟩] }).2.1 ⟨7, 8⟩ [] rfl
  · exact (c8_break_continue_loop_stack 0 initialEnv initialState).2.2.1 rfl
  · exact (c8_break_continue_loop_stack 0 initialEnv
      { initialState with loopStack := [⟨7, 8⟩] }).2.2.2 ⟨7, 8⟩ [] rfl

/-- Claim C9 (code bug evidence): the `!size:` branch splits at the
first colon of the tag, so the "inner type" it resolves is the string
`N:T`, an unknown tag that warns and defaults to the 64-bit integer;
`T` itself is never resolved.  Hence `!size:1:!int8` is a fatal size
mismatch (expected 1, actual 8) although the 8-bit integer's allocation
size is exactly 1, and `!size:8:!frac` resolves to the 64-bit integer
type instead of double. -/
theorem c9_size_tag_evaluation :
    get_type "!size:1:!int8" "x" = ([.untyped "x"], .error (.sizeMismatch "x" 1 8))
    ∧ get_type "!size:8:!frac" "x" = ([.untyped "x"], .ok (.int 64))
    ∧ get_type_size (.int 8) = 1 := by
  exact ⟨rfl, rfl, rfl⟩

/-- Claim C10: `(set (index a 0) 9)` with `a` registered as a 3-element
64-bit array never consults the constants registry — for every contents
of that registry (in particular with `a` recorded const) it compiles to
the element-pointer store with no constant-write error — while the
bare-symbol target `(set a 9)` under a constants registry holding `a`
is exactly the fatal constant write. -/
theorem c10_set_index_skips_constant_check :
    ∀ (cs : List (String × Val)),
      gen 3 (.list [.sym "set", .list [.sym "index", .sym "a", .number 0], .number 9])
          (.scopeNode [("a", .slot (.array (.int 64) 3) 0)] none)
          { constantsMap := cs, arrayTypes := [("a", .array (.int 64) 3)] } =
        .ok (.reg (.int 64) 1,
          .scopeNode [("a", .slot (.array (.int 64) 3) 0)] none,
          { constantsMap := cs,
            arrayTypes := [("a", .array (.int 64) 3)],
            bld := { instrs :=
                       [(0, .gep (.array (.int 64) 3) (.slot (.array (.int 64) 3) 0)
                            [.cint 64 0, .cint 8 0] 0),
                        (0, .zext (.cint 8 9) (.int 64) 1),
                        (0, .store (.reg (.int 64) 1) (.reg (.ptr 0) 0) 2)],
                     nextReg := 3 } })
      ∧ gen 3 (.list [.sym "set", .sym "a", .number 9])
          (.scopeNode [("a", .slot (.array (.int 64) 3) 0)] none)
          { constantsMap := [("a", .slot (.array (.int 64) 3) 0)],
            arrayTypes := [("a", .array (.int 64) 3)] } =
        .error (.constantWrite "a") := by
  intro cs
  exact ⟨rfl, rfl⟩
